import Mathlib

/-!
Shallow embedding of `CuniControlSkillLambda.py`, the Alexa skill lambda of
the CuniControl project. The Python module routes Alexa requests (launch,
intent, session-ended) to handler functions that read and write AWS IoT
device-shadow documents and build speechlet response envelopes.

Modelling choices:
* Python dict values are modelled by the JSON-like type `JVal`; the
  response envelopes the code builds are `JVal` objects, so the presence or
  absence of a key in a built dict is a real property of the model.
* The AWS IoT data-plane client is modelled by a `ShadowStore`
  (thing name to shadow document) for reads, and by returning the list of
  issued `ShadowUpdate`s for writes.
* Python exceptions (`ValueError`, `KeyError`, `TypeError`) are modelled by
  `Except SkillError`; a Python function that returns `None` is modelled
  with `Option`.
-/

/-- A JSON-like value, the model of a Python dict/str/number/bool/None value
as the lambda manipulates them. -/
inductive JVal where
  | null : JVal
  | bool : Bool → JVal
  | num : Int → JVal
  | str : String → JVal
  | obj : List (String × JVal) → JVal

/-- Key lookup in a `JVal`: `jGet v k` is `v[k]` when `v` is an object with
key `k`, and `none` otherwise (Python would raise `KeyError`/`TypeError`). -/
def jGet (v : JVal) (k : String) : Option JVal :=
  match v with
  | JVal.obj kvs => List.lookup k kvs
  | _ => none

/-- The Python exceptions the lambda can raise. -/
inductive SkillError where
  | valueError : String → SkillError
  | keyError : String → SkillError
  | typeError : SkillError
  deriving Repr, DecidableEq

/-- Python string concatenation `s + v` where `v` came from a JSON document:
defined only when `v` is a string, otherwise a `TypeError`. -/
def pyStrAdd (s : String) (v : JVal) : Except SkillError String :=
  match v with
  | JVal.str t => Except.ok (s ++ t)
  | _ => Except.error SkillError.typeError

/-- The state of the device shadows, read by `get_thing_state`: each thing
name maps to its full shadow document. -/
def ShadowStore : Type := String → JVal

/-- One call to `client.update_thing_shadow`, as logged by
`set_thing_state`: the target thing and the JSON payload posted to it. -/
structure ShadowUpdate where
  thingName : String
  payload : JVal

/-- An Alexa slot: the Python dict `{"value": ...}` inside `intent.slots`. -/
structure Slot where
  value : String
  deriving Repr, DecidableEq

/-- An Alexa intent: `{"name": ..., "slots": {...}}`. -/
structure Intent where
  name : String
  slots : List (String × Slot)
  deriving Repr, DecidableEq

/-- The `application` part of the session. -/
structure Application where
  applicationId : String
  deriving Repr, DecidableEq

/-- The Alexa session object: `event["session"]`. -/
structure Session where
  application : Application
  sessionId : String
  new : Bool
  attributes : List (String × JVal)

/-- The Alexa request object: `event["request"]`. The `intent` field is
only meaningful when `type = "IntentRequest"`. -/
structure Request where
  type : String
  requestId : String
  intent : Intent
  deriving Repr, DecidableEq

/-- The incoming lambda event: session plus request. -/
structure Event where
  session : Session
  request : Request

/-- `None`-or-string, for the `reprompt_text` argument (Python passes either
a `str` or `None`). -/
def optText : Option String → JVal
  | some s => JVal.str s
  | none => JVal.null

/-- `build_speechlet_response(title, output, reprompt_text,
should_end_session)`: the fixed-shape speechlet dict the Python helper
returns, with the card title and content prefixed by the fixed literal. -/
def build_speechlet_response (title output : String) (reprompt_text : Option String)
    (should_end_session : Bool) : JVal :=
  JVal.obj
    [("outputSpeech", JVal.obj
        [("type", JVal.str "PlainText"),
         ("text", JVal.str output)]),
     ("card", JVal.obj
        [("type", JVal.str "Simple"),
         ("title", JVal.str ("SessionSpeechlet - " ++ title)),
         ("content", JVal.str ("SessionSpeechlet - " ++ output))]),
     ("reprompt", JVal.obj
        [("outputSpeech", JVal.obj
            [("type", JVal.str "PlainText"),
             ("text", optText reprompt_text)])]),
     ("shouldEndSession", JVal.bool should_end_session)]

/-- `build_response(session_attributes, speechlet_response)`: wraps the
speechlet with the fixed version string and the session attributes. -/
def build_response (session_attributes : List (String × JVal))
    (speechlet_response : JVal) : JVal :=
  JVal.obj
    [("version", JVal.str "1.0"),
     ("sessionAttributes", JVal.obj session_attributes),
     ("response", speechlet_response)]

/-- `set_thing_state(thingName, desiredProperty, state)`: builds the JSON
payload `{"state": {"desired": {desiredProperty: state}}}` and posts it to
the thing's shadow; modelled as the update record the call issues. -/
def set_thing_state (thingName desiredProperty : String) (state : JVal) : ShadowUpdate :=
  { thingName := thingName,
    payload := JVal.obj
      [("state", JVal.obj
          [("desired", JVal.obj [(desiredProperty, state)])])] }

/-- `get_thing_state(thingName, thingProperty)`: fetches the thing's shadow
document and reads `jsonState["state"]["reported"][thingProperty]`; each
missing key raises a `KeyError`. -/
def get_thing_state (store : ShadowStore) (thingName thingProperty : String) :
    Except SkillError JVal :=
  match jGet (store thingName) "state" with
  | none => Except.error (SkillError.keyError "state")
  | some st =>
    match jGet st "reported" with
    | none => Except.error (SkillError.keyError "reported")
    | some rep =>
      match jGet rep thingProperty with
      | none => Except.error (SkillError.keyError thingProperty)
      | some v => Except.ok v

/-- `get_welcome_response()`: the fixed welcome envelope (empty session
attributes, non-terminal, with a reprompt). -/
def get_welcome_response : JVal :=
  build_response []
    (build_speechlet_response "Welcome"
      ("Welcome to the Cuni Control. " ++
       "You can find any COCO data set object by saying, Find a book, TV, Mouse, bottle other objects.  " ++
       "You can also ask, What is the temperature or humidity.")
      (some ("Please tell what to find, " ++
             "a fork, spoon, knife, chair, or potted plant."))
      false)

/-- `handle_session_end_request()`: the fixed farewell envelope (terminal,
`None` reprompt). -/
def handle_session_end_request : JVal :=
  build_response []
    (build_speechlet_response "Session Ended"
      ("Thank you for trying Cuni Control. " ++ "Have a nice day! ")
      none
      true)

/-- `set_find_object(intent, session)`: if the `CocoLabel` slot is present,
issues one shadow update setting `find` on `cam0` and ends the session;
otherwise re-prompts without any shadow call. Returns the envelope and the
list of shadow updates issued. -/
def set_find_object (intent : Intent) (_session : Session) : JVal × List ShadowUpdate :=
  let session_attributes : List (String × JVal) := []
  let card_title := intent.name
  match List.lookup "CocoLabel" intent.slots with
  | some slot =>
    let find_object := slot.value
    let upd := set_thing_state "cam0" "find" (JVal.str find_object)
    let speech_output := "I am now looking for a " ++ find_object
    let reprompt_text := ""
    let should_end_session := true
    (build_response session_attributes
      (build_speechlet_response card_title speech_output (some reprompt_text)
        should_end_session), [upd])
  | none =>
    let speech_output := "I'm not sure what you want me to find. " ++
                         "Please try again."
    let reprompt_text := "I'm not sure what you want me to find. " ++
                         "You can ask me to look for objects by saying, " ++
                         "Find a fork, knife, or spoon."
    let should_end_session := false
    (build_response session_attributes
      (build_speechlet_response card_title speech_output (some reprompt_text)
        should_end_session), [])

/-- `get_temp(intent, session)`: reads `TemperatureF` from `MegaIf1` and
splices it into the speech by Python string concatenation (a `TypeError`
when the reported value is not a string); terminal on success. -/
def get_temp (intent : Intent) (_session : Session) (store : ShadowStore) :
    Except SkillError (JVal × List ShadowUpdate) :=
  match get_thing_state store "MegaIf1" "TemperatureF" with
  | Except.error e => Except.error e
  | Except.ok temp =>
    match pyStrAdd "The temperature is " temp with
    | Except.error e => Except.error e
    | Except.ok s =>
      let speech_output := s ++ (" degrees. " ++ ". Goodbye.")
      Except.ok (build_response []
        (build_speechlet_response intent.name speech_output none true), [])

/-- `get_humidity(intent, session)`: reads `Humidity%` from `MegaIf1` and
splices it into the speech by Python string concatenation; terminal on
success. -/
def get_humidity (intent : Intent) (_session : Session) (store : ShadowStore) :
    Except SkillError (JVal × List ShadowUpdate) :=
  match get_thing_state store "MegaIf1" "Humidity%" with
  | Except.error e => Except.error e
  | Except.ok humidity =>
    match pyStrAdd "The humidity is " humidity with
    | Except.error e => Except.error e
    | Except.ok s =>
      let speech_output := s ++ (" percent. " ++ ". Goodbye.")
      Except.ok (build_response []
        (build_speechlet_response intent.name speech_output none true), [])

/-- `set_pan_angle(intent, session)`: if the `angle` slot is present, issues
one shadow update setting `panAngle` on `cam0`; `should_end_session` stays
`False` on both branches. -/
def set_pan_angle (intent : Intent) (_session : Session) : JVal × List ShadowUpdate :=
  let card_title := intent.name
  let session_attributes : List (String × JVal) := []
  let should_end_session := false
  match List.lookup "angle" intent.slots with
  | some slot =>
    let pan_angle := slot.value
    let speech_output := "I am setting the pan angle to " ++ pan_angle
    let upd := set_thing_state "cam0" "panAngle" (JVal.str pan_angle)
    (build_response session_attributes
      (build_speechlet_response card_title speech_output none
        should_end_session), [upd])
  | none =>
    let speech_output := "I'm not sure what your pan angle is. " ++
                         "Please try again."
    let reprompt_text := "I'm not sure what your pan angle is. " ++
                         "You can tell me your pan color by saying, " ++
                         "set pan angle to 90."
    (build_response session_attributes
      (build_speechlet_response card_title speech_output (some reprompt_text)
        should_end_session), [])

/-- `on_launch(launch_request, session)`: dispatches to the welcome
response. -/
def on_launch (_launch_request : Request) (_session : Session) : JVal :=
  get_welcome_response

/-- `on_intent(intent_request, session)`: the if/elif dispatch on the intent
name; an unknown name raises `ValueError("Invalid intent")`. -/
def on_intent (intent_request : Request) (session : Session) (store : ShadowStore) :
    Except SkillError (JVal × List ShadowUpdate) :=
  let intent := intent_request.intent
  let intent_name := intent_request.intent.name
  if intent_name = "FindObjectIntent" then
    Except.ok (set_find_object intent session)
  else if intent_name = "GetTemperature" then
    get_temp intent session store
  else if intent_name = "GetHumidity" then
    get_humidity intent session store
  else if intent_name = "SetPanIntent" then
    Except.ok (set_pan_angle intent session)
  else if intent_name = "AMAZON.HelpIntent" then
    Except.ok (get_welcome_response, [])
  else if intent_name = "AMAZON.CancelIntent" ∨ intent_name = "AMAZON.StopIntent" then
    Except.ok (handle_session_end_request, [])
  else
    Except.error (SkillError.valueError "Invalid intent")

/-- `on_session_ended(session_ended_request, session)`: only prints; returns
Python `None`, modelled by `none`. -/
def on_session_ended (_session_ended_request : Request) (_session : Session) :
    Option JVal :=
  none

/-- `lambda_handler(event, context)`: routes by `event["request"]["type"]`.
The result is the optional envelope (Python returns `None` both for
`SessionEndedRequest` and when every branch falls through) together with the
shadow updates issued on the way. -/
def lambda_handler (event : Event) (store : ShadowStore) :
    Except SkillError (Option JVal × List ShadowUpdate) :=
  if event.request.type = "LaunchRequest" then
    Except.ok (some (on_launch event.request event.session), [])
  else if event.request.type = "IntentRequest" then
    match on_intent event.request event.session store with
    | Except.ok (env, upds) => Except.ok (some env, upds)
    | Except.error e => Except.error e
  else if event.request.type = "SessionEndedRequest" then
    Except.ok (on_session_ended event.request event.session, [])
  else
    Except.ok (none, [])

/-! ### Observers on envelopes and handler results -/

/-- The field `env["response"][k]` of an envelope, when present. -/
def respField (env : JVal) (k : String) : Option JVal :=
  match jGet env "response" with
  | some r => jGet r k
  | none => none

/-- The `shouldEndSession` field of an envelope's response. -/
def respShouldEnd (env : JVal) : Option JVal :=
  respField env "shouldEndSession"

/-- The spoken text `env["response"]["outputSpeech"]["text"]`. -/
def respSpeechText (env : JVal) : Option JVal :=
  match respField env "outputSpeech" with
  | some os => jGet os "text"
  | none => none

/-- The reprompt text `env["response"]["reprompt"]["outputSpeech"]["text"]`. -/
def respRepromptText (env : JVal) : Option JVal :=
  match respField env "reprompt" with
  | some rp =>
    match jGet rp "outputSpeech" with
    | some os => jGet os "text"
    | none => none
  | none => none

/-- The envelope of a successful handler result. -/
def okEnv (r : Except SkillError (JVal × List ShadowUpdate)) : Option JVal :=
  match r with
  | Except.ok (env, _) => some env
  | Except.error _ => none

/-- The shadow updates issued by a successful handler result. -/
def okUpdates (r : Except SkillError (JVal × List ShadowUpdate)) :
    Option (List ShadowUpdate) :=
  match r with
  | Except.ok (_, upds) => some upds
  | Except.error _ => none

/-- The `shouldEndSession` value of a successful handler result. -/
def okShouldEnd (r : Except SkillError (JVal × List ShadowUpdate)) : Option JVal :=
  (okEnv r).bind respShouldEnd

/-- The spoken text of a successful handler result. -/
def okSpeechText (r : Except SkillError (JVal × List ShadowUpdate)) : Option JVal :=
  (okEnv r).bind respSpeechText

/-- The reprompt text of a successful handler result. -/
def okRepromptText (r : Except SkillError (JVal × List ShadowUpdate)) : Option JVal :=
  (okEnv r).bind respRepromptText

/-- Every envelope a dispatch result may return has the given
`shouldEndSession` value (vacuous when the result is an error). -/
def endsOkWith (r : Except SkillError (JVal × List ShadowUpdate)) (b : Bool) : Prop :=
  ∀ env upds, r = Except.ok (env, upds) → respShouldEnd env = some (JVal.bool b)

/-- An intent request event with the given id, intent name and slots. -/
def mkIntentEvent (s : Session) (rid name : String) (slots : List (String × Slot)) :
    Event :=
  { session := s, request := { type := "IntentRequest", requestId := rid,
                               intent := { name := name, slots := slots } } }

/-- True when the envelope's `response` object carries all four fields
`outputSpeech`, `card`, `reprompt` and `shouldEndSession`. -/
def hasAllFourFields (env : JVal) : Bool :=
  match jGet env "response" with
  | some r => (jGet r "outputSpeech").isSome && (jGet r "card").isSome &&
      (jGet r "reprompt").isSome && (jGet r "shouldEndSession").isSome
  | none => false

/-- The `sessionAttributes` field of the envelope a full invocation
returned, when it returned one. -/
def envAttrsOf (r : Except SkillError (Option JVal × List ShadowUpdate)) : Option JVal :=
  match r with
  | Except.ok (some env, _) => jGet env "sessionAttributes"
  | _ => none

/-- An `IntentRequest` with the given request id, intent name and slots. -/
def mkIntentReq (rid name : String) (slots : List (String × Slot)) : Request :=
  Request.mk "IntentRequest" rid (Intent.mk name slots)

/-! ### Concrete inputs used by witnesses and counterexamples -/

/-- A session with no attributes. -/
def demoSession : Session :=
  Session.mk (Application.mk "app1") "sess1" false []

/-- The reported properties of the `MegaIf1` shadow exactly as the module
docstring's schema lists them: the temperatures are numbers, the humidities
strings, per the quoting in the schema comment. -/
def megaReported : List (String × JVal) :=
  [("TemperatureF", JVal.num 72),
   ("TemperatureFMax", JVal.num 80),
   ("TemperatureFMin", JVal.num 60),
   ("Humidity", JVal.str "50"),
   ("HumidityMin", JVal.str "40"),
   ("HumidityMax", JVal.str "60"),
   ("ReportIntervalMinutes", JVal.num 5)]

/-- A `MegaIf1` shadow document conforming to the docstring schema. -/
def schemaMegaIf1 : JVal :=
  JVal.obj [("state", JVal.obj [("reported", JVal.obj megaReported)])]

/-- A shadow store whose documents conform to the docstring schema. -/
def megaStore : ShadowStore := fun _ => schemaMegaIf1

/-- A store whose `MegaIf1` document reports the given value for every
property (used to exercise the string/number cases of the readers). -/
def storeReporting (v : JVal) : ShadowStore := fun _ =>
  JVal.obj [("state", JVal.obj [("reported", JVal.obj
    [("TemperatureF", v), ("Humidity%", v)])])]

/-! ### Helper lemmas (shared by several claims' proofs) -/

/-- The builders always set `shouldEndSession` to the flag passed in. -/
theorem respShouldEnd_build (sa : List (String × JVal)) (t o : String)
    (r : Option String) (e : Bool) :
    respShouldEnd (build_response sa (build_speechlet_response t o r e)) =
      some (JVal.bool e) := rfl

/-- The builders always set the output speech to the text passed in. -/
theorem respSpeech_build (sa : List (String × JVal)) (t o : String)
    (r : Option String) (e : Bool) :
    respSpeechText (build_response sa (build_speechlet_response t o r e)) =
      some (JVal.str o) := rfl

/-- The builders put the passed attributes into `sessionAttributes`. -/
theorem attrs_build (sa : List (String × JVal)) (sp : JVal) :
    jGet (build_response sa sp) "sessionAttributes" = some (JVal.obj sa) := rfl

/-- Every envelope the builders produce has the four response fields. -/
theorem hasAllFour_build (sa : List (String × JVal)) (t o : String)
    (r : Option String) (e : Bool) :
    hasAllFourFields (build_response sa (build_speechlet_response t o r e)) = true := rfl

/-- When `get_temp` succeeds, its envelope is terminal. -/
theorem endsOk_get_temp (i : Intent) (s : Session) (store : ShadowStore) :
    endsOkWith (get_temp i s store) true := by
  intro env upds h
  unfold get_temp at h
  split at h
  · simp at h
  · split at h
    · simp at h
    · simp only [Except.ok.injEq, Prod.mk.injEq] at h
      rw [← h.1]
      rfl

/-- When `get_humidity` succeeds, its envelope is terminal. -/
theorem endsOk_get_humidity (i : Intent) (s : Session) (store : ShadowStore) :
    endsOkWith (get_humidity i s store) true := by
  intro env upds h
  unfold get_humidity at h
  split at h
  · simp at h
  · split at h
    · simp at h
    · simp only [Except.ok.injEq, Prod.mk.injEq] at h
      rw [← h.1]
      rfl

/-- Every envelope `on_intent` returns is built by `build_response` from
empty session attributes and a `build_speechlet_response` speechlet. -/
theorem on_intent_env_shape (req : Request) (s : Session) (store : ShadowStore)
    (env : JVal) (upds : List ShadowUpdate)
    (h : on_intent req s store = Except.ok (env, upds)) :
    ∃ t o r e, env = build_response [] (build_speechlet_response t o r e) := by
  simp only [on_intent] at h
  split at h
  · simp only [set_find_object] at h
    split at h <;>
      (simp only [Except.ok.injEq, Prod.mk.injEq] at h
       exact ⟨_, _, _, _, h.1.symm⟩)
  · split at h
    · unfold get_temp at h
      split at h
      · simp at h
      · split at h
        · simp at h
        · simp only [Except.ok.injEq, Prod.mk.injEq] at h
          exact ⟨_, _, _, _, h.1.symm⟩
    · split at h
      · unfold get_humidity at h
        split at h
        · simp at h
        · split at h
          · simp at h
          · simp only [Except.ok.injEq, Prod.mk.injEq] at h
            exact ⟨_, _, _, _, h.1.symm⟩
      · split at h
        · simp only [set_pan_angle] at h
          split at h <;>
            (simp only [Except.ok.injEq, Prod.mk.injEq] at h
             exact ⟨_, _, _, _, h.1.symm⟩)
        · split at h
          · simp only [Except.ok.injEq, Prod.mk.injEq] at h
            exact ⟨_, _, _, _, h.1.symm⟩
          · split at h
            · simp only [Except.ok.injEq, Prod.mk.injEq] at h
              exact ⟨_, _, _, _, h.1.symm⟩
            · simp at h

/-- Every envelope `lambda_handler` returns is built by `build_response`
from empty session attributes and a `build_speechlet_response` speechlet. -/
theorem lambda_handler_env_shape (ev : Event) (store : ShadowStore)
    (env : JVal) (upds : List ShadowUpdate)
    (h : lambda_handler ev store = Except.ok (some env, upds)) :
    ∃ t o r e, env = build_response [] (build_speechlet_response t o r e) := by
  unfold lambda_handler at h
  split at h
  · simp only [Except.ok.injEq, Prod.mk.injEq, Option.some.injEq] at h
    exact ⟨_, _, _, _, h.1.symm⟩
  · split at h
    · split at h
      · rename_i env2 upds2 heq
        simp only [Except.ok.injEq, Prod.mk.injEq, Option.some.injEq] at h
        obtain ⟨h1, h2⟩ := h
        subst h1 h2
        exact on_intent_env_shape _ _ _ _ _ heq
      · simp at h
    · split at h
      · simp only [on_session_ended] at h
        simp at h
      · simp at h

/-! ### The claims -/

/-- C1: for every supported intent name, dispatching an `IntentRequest` with
that name returns an envelope whose `response.shouldEndSession` equals the
documented value: `true` for `FindObjectIntent` (with its required
`CocoLabel` slot present), `GetTemperature`, `GetHumidity`,
`AMAZON.StopIntent` and `AMAZON.CancelIntent`; `false` for the launch/help
welcome response and for `SetPanIntent` even when its `angle` slot is
present and the shadow write is issued. -/
theorem C1_dispatch_shouldEndSession (s : Session) (store : ShadowStore)
    (rid v a : String) :
    okShouldEnd (on_intent (mkIntentReq rid "FindObjectIntent"
        [("CocoLabel", Slot.mk v)]) s store) = some (JVal.bool true)
  ∧ endsOkWith (on_intent (mkIntentReq rid "GetTemperature" []) s store) true
  ∧ endsOkWith (on_intent (mkIntentReq rid "GetHumidity" []) s store) true
  ∧ okShouldEnd (on_intent (mkIntentReq rid "AMAZON.StopIntent" []) s store)
      = some (JVal.bool true)
  ∧ okShouldEnd (on_intent (mkIntentReq rid "AMAZON.CancelIntent" []) s store)
      = some (JVal.bool true)
  ∧ okShouldEnd (on_intent (mkIntentReq rid "AMAZON.HelpIntent" []) s store)
      = some (JVal.bool false)
  ∧ respShouldEnd (on_launch (Request.mk "LaunchRequest" rid (Intent.mk "" [])) s)
      = some (JVal.bool false)
  ∧ okShouldEnd (on_intent (mkIntentReq rid "SetPanIntent"
        [("angle", Slot.mk a)]) s store) = some (JVal.bool false)
  ∧ okUpdates (on_intent (mkIntentReq rid "SetPanIntent"
        [("angle", Slot.mk a)]) s store)
      = some [set_thing_state "cam0" "panAngle" (JVal.str a)] := by
  refine ⟨rfl, ?_, ?_, rfl, rfl, rfl, rfl, rfl, rfl⟩
  · show endsOkWith (get_temp (Intent.mk "GetTemperature" []) s store) true
    exact endsOk_get_temp _ _ _
  · show endsOkWith (get_humidity (Intent.mk "GetHumidity" []) s store) true
    exact endsOk_get_humidity _ _ _

/-- C2: an `IntentRequest` whose intent name is outside the recognized set
makes the dispatcher raise `ValueError("Invalid intent")`, and
`lambda_handler` propagates that failure to the caller instead of producing
a default response. -/
theorem C2_unknown_intent_raises (s : Session) (store : ShadowStore)
    (rid name : String) (slots : List (String × Slot))
    (h1 : name ≠ "FindObjectIntent") (h2 : name ≠ "GetTemperature")
    (h3 : name ≠ "GetHumidity") (h4 : name ≠ "SetPanIntent")
    (h5 : name ≠ "AMAZON.HelpIntent") (h6 : name ≠ "AMAZON.CancelIntent")
    (h7 : name ≠ "AMAZON.StopIntent") :
    on_intent (mkIntentReq rid name slots) s store
        = Except.error (SkillError.valueError "Invalid intent")
  ∧ lambda_handler (Event.mk s (mkIntentReq rid name slots)) store
        = Except.error (SkillError.valueError "Invalid intent") := by
  have hon : on_intent (mkIntentReq rid name slots) s store
      = Except.error (SkillError.valueError "Invalid intent") := by
    simp only [on_intent, mkIntentReq]
    rw [if_neg h1, if_neg h2, if_neg h3, if_neg h4, if_neg h5,
        if_neg (not_or.mpr ⟨h6, h7⟩)]
  refine ⟨hon, ?_⟩
  have hlh : lambda_handler (Event.mk s (mkIntentReq rid name slots)) store
      = match on_intent (mkIntentReq rid name slots) s store with
        | Except.ok (env, upds) => Except.ok (some env, upds)
        | Except.error e => Except.error e := rfl
  rw [hlh, hon]

/-- C2 witness: `PlayMusicIntent` is not recognized; the dispatcher and the
entry point both surface `ValueError("Invalid intent")`. -/
theorem C2_unknown_intent_witness :
    on_intent (mkIntentReq "r1" "PlayMusicIntent" []) demoSession megaStore
        = Except.error (SkillError.valueError "Invalid intent")
  ∧ lambda_handler (Event.mk demoSession (mkIntentReq "r1" "PlayMusicIntent" [])) megaStore
        = Except.error (SkillError.valueError "Invalid intent") :=
  C2_unknown_intent_raises demoSession megaStore "r1" "PlayMusicIntent" []
    (by decide) (by decide) (by decide) (by decide) (by decide) (by decide) (by decide)

/-- C3: `FindObjectIntent` with `CocoLabel = v` issues exactly one shadow
update, addressed to `cam0`, whose desired-state delta is exactly
`{find: v}`, and returns a terminal envelope whose speech contains `v`. -/
theorem C3_find_object_update (s : Session) (store : ShadowStore) (rid v : String) :
    okUpdates (on_intent (mkIntentReq rid "FindObjectIntent"
        [("CocoLabel", Slot.mk v)]) s store)
      = some [ShadowUpdate.mk "cam0"
          (JVal.obj [("state", JVal.obj
            [("desired", JVal.obj [("find", JVal.str v)])])])]
  ∧ okShouldEnd (on_intent (mkIntentReq rid "FindObjectIntent"
        [("CocoLabel", Slot.mk v)]) s store) = some (JVal.bool true)
  ∧ okSpeechText (on_intent (mkIntentReq rid "FindObjectIntent"
        [("CocoLabel", Slot.mk v)]) s store)
      = some (JVal.str ("I am now looking for a " ++ v))
  ∧ v.data <:+ ("I am now looking for a " ++ v).data := by
  refine ⟨rfl, rfl, rfl, ⟨"I am now looking for a ".data, ?_⟩⟩
  rw [← String.data_append]

/-- C4: `FindObjectIntent` with no `CocoLabel` slot issues zero shadow
calls and returns a non-terminal envelope carrying a non-null re-prompt
text. -/
theorem C4_find_object_missing_slot (s : Session) (store : ShadowStore)
    (rid : String) (slots : List (String × Slot))
    (h : List.lookup "CocoLabel" slots = none) :
    okUpdates (on_intent (mkIntentReq rid "FindObjectIntent" slots) s store) = some []
  ∧ okShouldEnd (on_intent (mkIntentReq rid "FindObjectIntent" slots) s store)
      = some (JVal.bool false)
  ∧ okRepromptText (on_intent (mkIntentReq rid "FindObjectIntent" slots) s store)
      = some (JVal.str ("I'm not sure what you want me to find. " ++
          "You can ask me to look for objects by saying, " ++
          "Find a fork, knife, or spoon.")) := by
  have hres : on_intent (mkIntentReq rid "FindObjectIntent" slots) s store
      = Except.ok (build_response []
          (build_speechlet_response "FindObjectIntent"
            ("I'm not sure what you want me to find. " ++ "Please try again.")
            (some ("I'm not sure what you want me to find. " ++
                   "You can ask me to look for objects by saying, " ++
                   "Find a fork, knife, or spoon.")) false), []) := by
    show Except.ok (set_find_object (Intent.mk "FindObjectIntent" slots) s) = _
    simp only [set_find_object, h]
  refine ⟨?_, ?_, ?_⟩ <;> (rw [hres]; rfl)

/-- C4 witness: an empty slots mapping has no `CocoLabel` entry. -/
theorem C4_find_object_missing_slot_witness :
    okUpdates (on_intent (mkIntentReq "r1" "FindObjectIntent" []) demoSession megaStore)
      = some []
  ∧ okShouldEnd (on_intent (mkIntentReq "r1" "FindObjectIntent" []) demoSession megaStore)
      = some (JVal.bool false)
  ∧ okRepromptText (on_intent (mkIntentReq "r1" "FindObjectIntent" []) demoSession megaStore)
      = some (JVal.str ("I'm not sure what you want me to find. " ++
          "You can ask me to look for objects by saying, " ++
          "Find a fork, knife, or spoon.")) :=
  C4_find_object_missing_slot demoSession megaStore "r1" [] rfl

/-- The session-ended event used by C5's counterexample. -/
def sessEndEvent : Event :=
  Event.mk demoSession (Request.mk "SessionEndedRequest" "r1" (Intent.mk "" []))

/-- C5 counterexample: on a concrete `SessionEndedRequest` the entry point
returns `None` (no envelope at all), not the fixed farewell envelope the
claim asserts. -/
theorem C5_counterexample :
    lambda_handler sessEndEvent megaStore = Except.ok (none, [])
  ∧ lambda_handler sessEndEvent megaStore
      ≠ Except.ok (some handle_session_end_request, []) := by
  have h0 : lambda_handler sessEndEvent megaStore = Except.ok (none, []) := rfl
  refine ⟨h0, fun hc => ?_⟩
  rw [h0] at hc
  simp at hc

/-- C5 (amended): a `SessionEndedRequest` makes the entry point return no
envelope and issue no shadow call (`on_session_ended` returns `None`); the
fixed farewell envelope — speech `"Thank you for trying Cuni Control. Have
a nice day! "`, `shouldEndSession = true` — is returned for
`AMAZON.StopIntent` and `AMAZON.CancelIntent` only. -/
theorem C5_session_end_behaviour (s : Session) (store : ShadowStore)
    (rid : String) (slots : List (String × Slot)) :
    lambda_handler (Event.mk s (Request.mk "SessionEndedRequest" rid (Intent.mk "" [])))
        store = Except.ok (none, [])
  ∧ on_intent (mkIntentReq rid "AMAZON.StopIntent" slots) s store
      = Except.ok (handle_session_end_request, [])
  ∧ on_intent (mkIntentReq rid "AMAZON.CancelIntent" slots) s store
      = Except.ok (handle_session_end_request, [])
  ∧ respSpeechText handle_session_end_request
      = some (JVal.str ("Thank you for trying Cuni Control. " ++ "Have a nice day! "))
  ∧ respShouldEnd handle_session_end_request = some (JVal.bool true) :=
  ⟨rfl, rfl, rfl, rfl, rfl⟩

/-- The session whose attributes C6's counterexample expects back. -/
def demoAttrs : List (String × JVal) := [("favColor", JVal.str "blue")]

/-- A session carrying one attribute. -/
def sessionWithAttrs : Session :=
  Session.mk (Application.mk "app1") "sess1" false demoAttrs

/-- A FindObject event sent with that session. -/
def findBookEvent : Event :=
  Event.mk sessionWithAttrs (mkIntentReq "r1" "FindObjectIntent" [("CocoLabel", Slot.mk "book")])

/-- C6 counterexample: the caller passes the attribute `favColor = "blue"`
with the session, and the returned envelope's `sessionAttributes` is the
empty mapping, not an echo of the incoming attributes. -/
theorem C6_counterexample :
    envAttrsOf (lambda_handler findBookEvent megaStore) = some (JVal.obj [])
  ∧ envAttrsOf (lambda_handler findBookEvent megaStore)
      ≠ some (JVal.obj sessionWithAttrs.attributes) := by
  have h0 : envAttrsOf (lambda_handler findBookEvent megaStore) = some (JVal.obj []) := rfl
  refine ⟨h0, fun hc => ?_⟩
  rw [h0] at hc
  simp [sessionWithAttrs, demoAttrs] at hc

/-- C6 (amended): every envelope the system returns carries the empty
mapping as `sessionAttributes` — the handlers build their responses with
`session_attributes = {}` and drop the caller's incoming attributes instead
of echoing them. -/
theorem C6_attrs_always_empty (ev : Event) (store : ShadowStore)
    (env : JVal) (upds : List ShadowUpdate)
    (h : lambda_handler ev store = Except.ok (some env, upds)) :
    jGet env "sessionAttributes" = some (JVal.obj []) := by
  obtain ⟨t, o, r, e, rfl⟩ := lambda_handler_env_shape ev store env upds h
  rfl

/-- The launch event used by C6's witness. -/
def launchEvent : Event :=
  Event.mk demoSession (Request.mk "LaunchRequest" "r1" (Intent.mk "" []))

/-- C6 witness: the welcome envelope returned for a launch request carries
empty session attributes. -/
theorem C6_attrs_witness :
    jGet get_welcome_response "sessionAttributes" = some (JVal.obj []) :=
  C6_attrs_always_empty launchEvent megaStore get_welcome_response [] rfl

/-- C7: the code requests the reported key `Humidity%` from `MegaIf1`, but
the module docstring's schema lists `Humidity` (no percent sign) among the
reported keys; on a document conforming to that schema the read raises
`KeyError("Humidity%")` instead of succeeding. -/
theorem C7_humidity_key_not_in_schema :
    List.lookup "Humidity%" megaReported = none
  ∧ List.lookup "Humidity" megaReported = some (JVal.str "50")
  ∧ get_humidity (Intent.mk "GetHumidity" []) demoSession megaStore
      = Except.error (SkillError.keyError "Humidity%") := ⟨rfl, rfl, rfl⟩

/-- C8: every envelope the entry point returns carries all four fields of
its `response` object — `outputSpeech`, `card`, `reprompt` and
`shouldEndSession` — even when some contents are null. -/
theorem C8_response_has_all_four_fields (ev : Event) (store : ShadowStore)
    (env : JVal) (upds : List ShadowUpdate)
    (h : lambda_handler ev store = Except.ok (some env, upds)) :
    hasAllFourFields env = true := by
  obtain ⟨t, o, r, e, rfl⟩ := lambda_handler_env_shape ev store env upds h
  rfl

/-- The stop-intent event used by C8's witness. -/
def stopEvent : Event :=
  Event.mk demoSession (mkIntentReq "r1" "AMAZON.StopIntent" [])

/-- C8 witness: the farewell envelope returned for `AMAZON.StopIntent`
carries all four response fields (its reprompt text is null). -/
theorem C8_response_fields_witness :
    hasAllFourFields handle_session_end_request = true :=
  C8_response_has_all_four_fields stopEvent megaStore handle_session_end_request [] rfl

/-- C9: an event whose request type is none of `LaunchRequest`,
`IntentRequest` or `SessionEndedRequest` falls through every branch of the
entry point, which returns `None` — no envelope, no failure, no shadow
call. -/
theorem C9_unknown_request_type (ev : Event) (store : ShadowStore)
    (h1 : ev.request.type ≠ "LaunchRequest")
    (h2 : ev.request.type ≠ "IntentRequest")
    (h3 : ev.request.type ≠ "SessionEndedRequest") :
    lambda_handler ev store = Except.ok (none, []) := by
  unfold lambda_handler
  rw [if_neg h1, if_neg h2, if_neg h3]

/-- C9 witness: an `AudioPlayer.PlaybackStarted` request returns `None`. -/
theorem C9_unknown_request_type_witness :
    lambda_handler (Event.mk demoSession
        (Request.mk "AudioPlayer.PlaybackStarted" "r1" (Intent.mk "" []))) megaStore
      = Except.ok (none, []) :=
  C9_unknown_request_type _ _ (by decide) (by decide) (by decide)

/-- C10: the temperature/humidity handlers splice the reported value into
the speech by Python string concatenation. When the reported value is a
string `v` the handler is total and speaks the template with `v` verbatim;
when it is a number (as the docstring schema gives for `TemperatureF`) the
concatenation raises `TypeError` and no envelope is produced — in
particular `get_temp` fails on the schema-conforming store itself. -/
theorem C10_speech_splice_typing (i : Intent) (s : Session) (v : String)
    (n : Int) (store : ShadowStore) :
    (get_thing_state store "MegaIf1" "TemperatureF" = Except.ok (JVal.str v) →
      get_temp i s store = Except.ok (build_response []
        (build_speechlet_response i.name
          (("The temperature is " ++ v) ++ (" degrees. " ++ ". Goodbye.")) none true), []))
  ∧ (get_thing_state store "MegaIf1" "TemperatureF" = Except.ok (JVal.num n) →
      get_temp i s store = Except.error SkillError.typeError)
  ∧ (get_thing_state store "MegaIf1" "Humidity%" = Except.ok (JVal.str v) →
      get_humidity i s store = Except.ok (build_response []
        (build_speechlet_response i.name
          (("The humidity is " ++ v) ++ (" percent. " ++ ". Goodbye.")) none true), []))
  ∧ (get_thing_state store "MegaIf1" "Humidity%" = Except.ok (JVal.num n) →
      get_humidity i s store = Except.error SkillError.typeError)
  ∧ get_temp i s megaStore = Except.error SkillError.typeError := by
  refine ⟨fun h => ?_, fun h => ?_, fun h => ?_, fun h => ?_, rfl⟩
  · unfold get_temp; rw [h]; rfl
  · unfold get_temp; rw [h]; rfl
  · unfold get_humidity; rw [h]; rfl
  · unfold get_humidity; rw [h]; rfl
